import Mathlib

/-!
Shallow embedding of the KeySafe ink! contract (src/ink/lib2.rs).

Modelling choices:
- An `AccountId` (opaque 32-byte identity in ink) is modelled as a
  plain `Nat`.
- A `Balance` (`u128` in ink) is modelled as `Nat`.  The one place where
  u128 underflow matters — the unchecked subtraction in `transfer` —
  is modelled explicitly: `transfer` returns `none` when the subtraction
  `from_balance - value` would underflow (checked u128 arithmetic traps
  there; in the step relation a trapped call reverts, leaving state
  unchanged, which is the ink transaction semantics).
- The `u8` status field and `u32` counters are modelled as `Nat`; no
  operation of the contract brings them anywhere near their width bounds.
- Each `ink_storage::Mapping` is modelled as a function
  `Nat → Option V`; `Mapping::get` is function application and
  `Mapping::insert` is pointwise update (`mapInsert`).  Crucially,
  `get` yields an owned copy: mutating the copy does not change storage
  unless an `insert` writes it back — exactly as in ink.
-/

/-- `Node` struct of src/ink/lib2.rs (lines 26-29). -/
structure Node where
  nid : Nat
  pubk : String
deriving DecidableEq

/-- `User` struct of src/ink/lib2.rs (lines 34-43). -/
structure User where
  uid : Nat
  pubk : String
  node1_cond_type : Nat
  node1_id : Nat
  node2_cond_type : Nat
  node2_id : Nat
  node3_cond_type : Nat
  node3_id : Nat
deriving DecidableEq

/-- `Recovery` struct of src/ink/lib2.rs (lines 49-59).
`status` is 0 for not started (Idle), 1 for started (Active),
2 for finished (Finalized). -/
structure Recovery where
  status : Nat
  uid : Nat
  r_times : Nat
  recovery1_proof : String
  node1_confirm : Nat
  recovery2_proof : String
  node2_confirm : Nat
  recovery3_proof : String
  node3_confirm : Nat
deriving DecidableEq

/-- `Error` enum of src/ink/lib2.rs (lines 77-80): the single error type. -/
inductive Error where
  | InsufficientBalance
deriving DecidableEq

/-- `KeyLedger` storage struct of src/ink/lib2.rs (lines 63-70). -/
structure KeyLedger where
  total_supply : Nat
  balances : Nat → Option Nat
  nodes : Nat → Option Node
  users : Nat → Option User
  recoveries : Nat → Option Recovery

/-- `Mapping::insert`: pointwise update of a stored map. -/
def mapInsert {α : Type} (m : Nat → Option α) (k : Nat) (v : α) :
    Nat → Option α :=
  fun a => if a = k then some v else m a

/-- Constructor `new` / `new_init` (lines 85-95): the caller receives the
whole initial supply; all other maps start empty. -/
def new (caller : Nat) (total_supply : Nat) : KeyLedger :=
  { total_supply := total_supply
    balances := mapInsert (fun _ => none) caller total_supply
    nodes := fun _ => none
    users := fun _ => none
    recoveries := fun _ => none }

/-- `balance_of` (lines 102-105): `unwrap_or_default` yields 0 for an
absent account. -/
def balance_of (s : KeyLedger) (owner : Nat) : Nat :=
  (s.balances owner).getD 0

/-- `transfer` (lines 107-119): the balance guard is commented out in the
source, so the caller's balance is debited by unchecked u128 subtraction.
`none` models the underflow trap when `balance_of caller < value`;
otherwise the debit and credit are performed and `Ok(())` is returned.
Note the credit reads `balance_of to` after the debit was written, as in
the source. -/
def transfer (s : KeyLedger) (caller toAcc : Nat) (value : Nat) :
    Option (KeyLedger × Except Error Unit) :=
  let from_balance := balance_of s caller
  if from_balance < value then
    none
  else
    let s1 : KeyLedger := { s with balances := mapInsert s.balances caller (from_balance - value) }
    let to_balance := balance_of s1 toAcc
    some ({ s1 with balances := mapInsert s1.balances toAcc (to_balance + value) }, Except.ok ())

/-- `transfer_from_to` (lines 121-133): the checked transfer.  Fails with
`InsufficientBalance` and changes nothing when `balance_of fromAcc < value`;
otherwise debits `fromAcc`, credits `toAcc` (read after the debit), and
returns `Ok(())`. -/
def transfer_from_to (s : KeyLedger) (fromAcc toAcc : Nat) (value : Nat) :
    KeyLedger × Except Error Unit :=
  let from_balance := balance_of s fromAcc
  if from_balance < value then
    (s, Except.error Error.InsufficientBalance)
  else
    let s1 : KeyLedger := { s with balances := mapInsert s.balances fromAcc (from_balance - value) }
    let to_balance := balance_of s1 toAcc
    ({ s1 with balances := mapInsert s1.balances toAcc (to_balance + value) }, Except.ok ())

/-- `register_node` (lines 136-149): create the Node record if absent,
silent no-op if one already exists. -/
def register_node (s : KeyLedger) (sender : Nat) (pubk : String) : KeyLedger :=
  match s.nodes sender with
  | some _ => s
  | none => { s with nodes := mapInsert s.nodes sender { nid := sender, pubk := pubk } }

/-- `register_user` (lines 163-192): unconditionally overwrite the User
record and seed a fresh Idle recovery session (status 0, counter 0, empty
proofs, zero confirmation flags). -/
def register_user (s : KeyLedger) (sender : Nat) (pubk : String)
    (node1_cond_type : Nat) (node1_id : Nat)
    (node2_cond_type : Nat) (node2_id : Nat)
    (node3_cond_type : Nat) (node3_id : Nat) : KeyLedger :=
  let user : User :=
    { uid := sender, pubk := pubk
      node1_cond_type := node1_cond_type, node1_id := node1_id
      node2_cond_type := node2_cond_type, node2_id := node2_id
      node3_cond_type := node3_cond_type, node3_id := node3_id }
  let recovery : Recovery :=
    { status := 0, uid := sender, r_times := 0
      recovery1_proof := "", node1_confirm := 0
      recovery2_proof := "", node2_confirm := 0
      recovery3_proof := "", node3_confirm := 0 }
  { s with users := mapInsert s.users sender user
           recoveries := mapInsert s.recoveries sender recovery }

/-- `start_recovery` (lines 195-219): silent return when the caller's
balance is below 3; otherwise, if a session exists, write it back with
status 1, cleared proofs and zero flags (`..r` keeps `uid` and `r_times`);
if no session exists, nothing happens. -/
def start_recovery (s : KeyLedger) (sender : Nat) : KeyLedger :=
  let balance := balance_of s sender
  if balance < 3 then s
  else
    match s.recoveries sender with
    | some r =>
        let r1 : Recovery :=
          { r with status := 1
                   recovery1_proof := "", node1_confirm := 0
                   recovery2_proof := "", node2_confirm := 0
                   recovery3_proof := "", node3_confirm := 0 }
        { s with recoveries := mapInsert s.recoveries sender r1 }
    | none => s

/-- The sender-matching slot update inside `finish_recovery`
(lines 233-243): an if / else-if chain over the three custodian ids;
a match sets that slot's flag to 1 and stores the proof; no match leaves
the local copy unchanged.  This acts on the local copy `r` obtained from
`recoveries.get`. -/
def applyConfirm (u : User) (r : Recovery) (sender : Nat) (proof : String) : Recovery :=
  if u.node1_id = sender then { r with node1_confirm := 1, recovery1_proof := proof }
  else if u.node2_id = sender then { r with node2_confirm := 1, recovery2_proof := proof }
  else if u.node3_id = sender then { r with node3_confirm := 1, recovery3_proof := proof }
  else r

/-- `confirm_parts` (line 245): the sum of the three confirmation flags. -/
def confirm_parts (r : Recovery) : Nat :=
  r.node1_confirm + r.node2_confirm + r.node3_confirm

/-- `finish_recovery` (lines 222-259).  Looks up the User and Recovery
records for `user`; absent record or status other than 1 is a silent
return.  The slot update is applied to the local copy only.  When the
flag sum reaches 2 the session is written back with status 2 and
`r_times + 1`, then three checked 1-unit transfers to the custodians run
with their `Result`s discarded.  In the below-threshold branch NO
`recoveries.insert` occurs in the source, so the state is returned
unchanged. -/
def finish_recovery (s : KeyLedger) (sender : Nat) (user : Nat)
    (proof : String) : KeyLedger :=
  match s.users user with
  | none => s
  | some u =>
    match s.recoveries user with
    | none => s
    | some r =>
      if r.status ≠ 1 then s
      else
        let r2 := applyConfirm u r sender proof
        if 2 ≤ confirm_parts r2 then
          let r1 : Recovery := { r2 with r_times := r2.r_times + 1, status := 2 }
          let sa : KeyLedger := { s with recoveries := mapInsert s.recoveries user r1 }
          let sb := (transfer_from_to sa user u.node1_id 1).1
          let sc := (transfer_from_to sb user u.node2_id 1).1
          (transfer_from_to sc user u.node3_id 1).1
        else s

/-- One invocation of a state-mutating entry point of the contract,
with the caller identity supplied by the execution environment. -/
inductive Op where
  | transfer (caller toAcc : Nat) (value : Nat)
  | register_node (caller : Nat) (pubk : String)
  | register_user (caller : Nat) (pubk : String)
      (node1_cond_type : Nat) (node1_id : Nat)
      (node2_cond_type : Nat) (node2_id : Nat)
      (node3_cond_type : Nat) (node3_id : Nat)
  | start_recovery (caller : Nat)
  | finish_recovery (caller : Nat) (user : Nat) (proof : String)

/-- Execute one call.  A trapped `transfer` (u128 underflow) reverts the
transaction, leaving the state unchanged, per the ink execution model. -/
def applyOp (s : KeyLedger) : Op → KeyLedger
  | Op.transfer caller toAcc value =>
      match transfer s caller toAcc value with
      | some (s1, _) => s1
      | none => s
  | Op.register_node caller pubk => register_node s caller pubk
  | Op.register_user caller pubk c1 n1 c2 n2 c3 n3 =>
      register_user s caller pubk c1 n1 c2 n2 c3 n3
  | Op.start_recovery caller => start_recovery s caller
  | Op.finish_recovery caller user proof => finish_recovery s caller user proof

/-- States reachable from some deployment of the contract by a sequence
of entry-point calls. -/
inductive Reachable : KeyLedger → Prop where
  | init (caller : Nat) (supply : Nat) : Reachable (new caller supply)
  | step (s : KeyLedger) (op : Op) : Reachable s → Reachable (applyOp s op)

/-- Storage invariant of the contract: every stored recovery session has
all three confirmation flags 0 and counter 0 (a consequence of the
missing below-threshold write-back in `finish_recovery`). -/
def RecInv (s : KeyLedger) : Prop :=
  ∀ a r, s.recoveries a = some r →
    r.node1_confirm = 0 ∧ r.node2_confirm = 0 ∧ r.node3_confirm = 0 ∧ r.r_times = 0

/-- Concrete deployment used in concrete evaluations: account 0 deploys
with supply 30000 and registers no-one. -/
def sampleRegistered : KeyLedger :=
  applyOp (new 0 30000) (Op.register_user 1 "pkA" 0 2 0 3 0 4)

/-- Concrete reachable state: user 1 (custodians 2, 3, 4) is registered,
funded with 3 units, and has started a recovery (session Active). -/
def sampleActive : KeyLedger :=
  applyOp (applyOp sampleRegistered (Op.transfer 0 1 3)) (Op.start_recovery 1)

/-- Concrete (unreachable) state: like `sampleActive` but with the first
two confirmation flags already stored as 1. -/
def sampleTwoConfirm : KeyLedger :=
  let r : Recovery :=
    { status := 1, uid := 1, r_times := 0
      recovery1_proof := "p1", node1_confirm := 1
      recovery2_proof := "p2", node2_confirm := 1
      recovery3_proof := "", node3_confirm := 0 }
  { sampleActive with recoveries := mapInsert sampleActive.recoveries 1 r }

/-- Concrete (unreachable) state: like `sampleActive` but with custodian
2's confirmation flag already stored as 1. -/
def sampleOneConfirm : KeyLedger :=
  let r : Recovery :=
    { status := 1, uid := 1, r_times := 0
      recovery1_proof := "p1", node1_confirm := 1
      recovery2_proof := "", node2_confirm := 0
      recovery3_proof := "", node3_confirm := 0 }
  { sampleActive with recoveries := mapInsert sampleActive.recoveries 1 r }

/-! Helper lemmas. -/

lemma transfer_none_eq (s : KeyLedger) (caller toAcc : Nat) (value : Nat)
    (hc : balance_of s caller < value) : transfer s caller toAcc value = none := by
  simp [transfer, hc]

lemma transfer_ok_eq (s : KeyLedger) (caller toAcc : Nat) (value : Nat)
    (hc : ¬ balance_of s caller < value) :
    transfer s caller toAcc value =
      some ({ s with balances := (mapInsert
          (mapInsert s.balances caller (balance_of s caller - value)) toAcc
          (balance_of
            { s with balances := mapInsert s.balances caller (balance_of s caller - value) } toAcc
            + value)) },
        Except.ok ()) := by
  simp [transfer, hc]

lemma transfer_some_recoveries (s : KeyLedger) (caller toAcc : Nat) (value : Nat)
    (s1 : KeyLedger) (res : Except Error Unit)
    (h : transfer s caller toAcc value = some (s1, res)) : s1.recoveries = s.recoveries := by
  by_cases hc : balance_of s caller < value
  · rw [transfer_none_eq s caller toAcc value hc] at h
    exact absurd h (by simp)
  · rw [transfer_ok_eq s caller toAcc value hc] at h
    simp only [Option.some.injEq, Prod.mk.injEq] at h
    rw [← h.1]

lemma transfer_from_to_insufficient (s : KeyLedger) (fromAcc toAcc : Nat) (value : Nat)
    (h : balance_of s fromAcc < value) :
    transfer_from_to s fromAcc toAcc value = (s, Except.error Error.InsufficientBalance) := by
  simp [transfer_from_to, h]

lemma transfer_from_to_ok_eq (s : KeyLedger) (fromAcc toAcc : Nat) (value : Nat)
    (hc : ¬ balance_of s fromAcc < value) :
    transfer_from_to s fromAcc toAcc value =
      ({ s with balances := (mapInsert
          (mapInsert s.balances fromAcc (balance_of s fromAcc - value)) toAcc
          (balance_of
            { s with balances := mapInsert s.balances fromAcc (balance_of s fromAcc - value) } toAcc
            + value)) },
        Except.ok ()) := by
  simp [transfer_from_to, hc]

lemma transfer_from_to_fst_frame (s : KeyLedger) (fromAcc toAcc : Nat) (value : Nat) :
    ((transfer_from_to s fromAcc toAcc value).1).recoveries = s.recoveries ∧
    ((transfer_from_to s fromAcc toAcc value).1).users = s.users ∧
    ((transfer_from_to s fromAcc toAcc value).1).nodes = s.nodes := by
  by_cases hc : balance_of s fromAcc < value
  · rw [transfer_from_to_insufficient s fromAcc toAcc value hc]
    exact ⟨rfl, rfl, rfl⟩
  · rw [transfer_from_to_ok_eq s fromAcc toAcc value hc]
    exact ⟨rfl, rfl, rfl⟩

lemma transfer_from_to_ok (s : KeyLedger) (fromAcc toAcc : Nat) (value : Nat)
    (hft : fromAcc ≠ toAcc) (hv : value ≤ balance_of s fromAcc) :
    (transfer_from_to s fromAcc toAcc value).2 = Except.ok () ∧
    balance_of (transfer_from_to s fromAcc toAcc value).1 fromAcc = balance_of s fromAcc - value ∧
    balance_of (transfer_from_to s fromAcc toAcc value).1 toAcc = balance_of s toAcc + value ∧
    ∀ a, a ≠ fromAcc → a ≠ toAcc →
      balance_of (transfer_from_to s fromAcc toAcc value).1 a = balance_of s a := by
  have hc : ¬ balance_of s fromAcc < value := Nat.not_lt.mpr hv
  rw [transfer_from_to_ok_eq s fromAcc toAcc value hc]
  refine ⟨rfl, ?_, ?_, ?_⟩
  · simp [balance_of, mapInsert, hft]
  · simp [balance_of, mapInsert, Ne.symm hft]
  · intro a ha hb
    simp [balance_of, mapInsert, ha, hb]

lemma applyConfirm_r_times (u : User) (r : Recovery) (sender : Nat) (proof : String) :
    (applyConfirm u r sender proof).r_times = r.r_times := by
  unfold applyConfirm
  by_cases e1 : u.node1_id = sender <;> by_cases e2 : u.node2_id = sender <;>
    by_cases e3 : u.node3_id = sender <;> simp [e1, e2, e3]

lemma applyConfirm_no_match (u : User) (r : Recovery) (sender : Nat) (proof : String)
    (h1 : u.node1_id ≠ sender) (h2 : u.node2_id ≠ sender) (h3 : u.node3_id ≠ sender) :
    applyConfirm u r sender proof = r := by
  simp [applyConfirm, h1, h2, h3]

lemma confirm_parts_applyConfirm_le_one (u : User) (r : Recovery) (sender : Nat)
    (proof : String) (h1 : r.node1_confirm = 0) (h2 : r.node2_confirm = 0)
    (h3 : r.node3_confirm = 0) :
    confirm_parts (applyConfirm u r sender proof) ≤ 1 := by
  unfold applyConfirm confirm_parts
  by_cases e1 : u.node1_id = sender <;> by_cases e2 : u.node2_id = sender <;>
    by_cases e3 : u.node3_id = sender <;> simp [e1, e2, e3, h1, h2, h3]

lemma finish_recovery_no_user (s : KeyLedger) (sender userId : Nat) (proof : String)
    (hu : s.users userId = none) : finish_recovery s sender userId proof = s := by
  simp [finish_recovery, hu]

lemma finish_recovery_no_session (s : KeyLedger) (sender userId : Nat) (proof : String)
    (u : User) (hu : s.users userId = some u) (hr : s.recoveries userId = none) :
    finish_recovery s sender userId proof = s := by
  simp [finish_recovery, hu, hr]

lemma finish_recovery_not_active (s : KeyLedger) (sender userId : Nat) (proof : String)
    (u : User) (r : Recovery) (hu : s.users userId = some u)
    (hr : s.recoveries userId = some r) (hst : r.status ≠ 1) :
    finish_recovery s sender userId proof = s := by
  simp [finish_recovery, hu, hr, hst]

lemma finish_recovery_below_threshold (s : KeyLedger) (sender userId : Nat) (proof : String)
    (u : User) (r : Recovery) (hu : s.users userId = some u)
    (hr : s.recoveries userId = some r) (hst : r.status = 1)
    (hlt : confirm_parts (applyConfirm u r sender proof) < 2) :
    finish_recovery s sender userId proof = s := by
  have h2 : ¬ 2 ≤ confirm_parts (applyConfirm u r sender proof) := Nat.not_le.mpr hlt
  simp [finish_recovery, hu, hr, hst, h2]

lemma finish_recovery_finalize (s : KeyLedger) (sender userId : Nat) (proof : String)
    (u : User) (r : Recovery) (hu : s.users userId = some u)
    (hr : s.recoveries userId = some r) (hst : r.status = 1)
    (hge : 2 ≤ confirm_parts (applyConfirm u r sender proof)) :
    finish_recovery s sender userId proof =
      (transfer_from_to ((transfer_from_to ((transfer_from_to
        { s with recoveries := (mapInsert s.recoveries userId
            { applyConfirm u r sender proof with
                r_times := (applyConfirm u r sender proof).r_times + 1, status := 2 }) }
        userId u.node1_id 1).1) userId u.node2_id 1).1) userId u.node3_id 1).1 := by
  simp [finish_recovery, hu, hr, hst, hge]

lemma finish_recovery_noop_of_recInv (s : KeyLedger) (hinv : RecInv s)
    (sender userId : Nat) (proof : String) :
    finish_recovery s sender userId proof = s := by
  rcases hu : s.users userId with _ | u
  · exact finish_recovery_no_user s sender userId proof hu
  rcases hr : s.recoveries userId with _ | r
  · exact finish_recovery_no_session s sender userId proof u hu hr
  by_cases hst : r.status = 1
  · have h := hinv userId r hr
    have hle := confirm_parts_applyConfirm_le_one u r sender proof h.1 h.2.1 h.2.2.1
    exact finish_recovery_below_threshold s sender userId proof u r hu hr hst
      (Nat.lt_of_le_of_lt hle (by omega))
  · exact finish_recovery_not_active s sender userId proof u r hu hr hst

lemma start_recovery_lt (s : KeyLedger) (sender : Nat)
    (h : balance_of s sender < 3) : start_recovery s sender = s := by
  simp [start_recovery, h]

lemma start_recovery_no_session (s : KeyLedger) (sender : Nat)
    (h3 : ¬ balance_of s sender < 3) (h : s.recoveries sender = none) :
    start_recovery s sender = s := by
  simp [start_recovery, h3, h]

lemma start_recovery_some (s : KeyLedger) (sender : Nat) (r : Recovery)
    (h3 : ¬ balance_of s sender < 3) (h : s.recoveries sender = some r) :
    start_recovery s sender =
      { s with recoveries := (mapInsert s.recoveries sender
          { r with status := 1
                   recovery1_proof := "", node1_confirm := 0
                   recovery2_proof := "", node2_confirm := 0
                   recovery3_proof := "", node3_confirm := 0 }) } := by
  simp [start_recovery, h3, h]

lemma register_node_recoveries (s : KeyLedger) (sender : Nat) (pubk : String) :
    (register_node s sender pubk).recoveries = s.recoveries := by
  unfold register_node
  split <;> rfl

lemma applyOp_transfer_recoveries (s : KeyLedger) (caller toAcc : Nat) (value : Nat) :
    (applyOp s (Op.transfer caller toAcc value)).recoveries = s.recoveries := by
  simp only [applyOp]
  rcases htr : transfer s caller toAcc value with _ | ⟨s1, res⟩
  · rfl
  · exact transfer_some_recoveries s caller toAcc value s1 res htr

lemma recInv_new (caller : Nat) (supply : Nat) : RecInv (new caller supply) := by
  intro a r h
  simp [new] at h

lemma recInv_applyOp (s : KeyLedger) (op : Op) (hinv : RecInv s) : RecInv (applyOp s op) := by
  cases op with
  | transfer caller toAcc value =>
      intro a r h
      rw [applyOp_transfer_recoveries] at h
      exact hinv a r h
  | register_node caller pubk =>
      intro a r h
      simp only [applyOp] at h
      rw [register_node_recoveries] at h
      exact hinv a r h
  | register_user caller pubk c1 n1 c2 n2 c3 n3 =>
      intro a r h
      simp only [applyOp, register_user, mapInsert] at h
      by_cases ha : a = caller
      · rw [if_pos ha] at h
        simp only [Option.some.injEq] at h
        rw [← h]
        exact ⟨rfl, rfl, rfl, rfl⟩
      · rw [if_neg ha] at h
        exact hinv a r h
  | start_recovery caller =>
      intro a r h
      simp only [applyOp] at h
      by_cases h3 : balance_of s caller < 3
      · rw [start_recovery_lt s caller h3] at h
        exact hinv a r h
      · rcases hr : s.recoveries caller with _ | r0
        · rw [start_recovery_no_session s caller h3 hr] at h
          exact hinv a r h
        · rw [start_recovery_some s caller r0 h3 hr] at h
          simp only [mapInsert] at h
          by_cases ha : a = caller
          · rw [if_pos ha] at h
            simp only [Option.some.injEq] at h
            rw [← h]
            exact ⟨rfl, rfl, rfl, (hinv caller r0 hr).2.2.2⟩
          · rw [if_neg ha] at h
            exact hinv a r h
  | finish_recovery caller userId proof =>
      intro a r h
      simp only [applyOp] at h
      rw [finish_recovery_noop_of_recInv s hinv caller userId proof] at h
      exact hinv a r h

lemma reachable_recInv (s : KeyLedger) (hs : Reachable s) : RecInv s := by
  induction hs with
  | init caller supply => exact recInv_new caller supply
  | step s op _ ih => exact recInv_applyOp s op ih

lemma reachable_foldl (s : KeyLedger) (hs : Reachable s) (ops : List Op) :
    Reachable (List.foldl applyOp s ops) := by
  induction ops generalizing s with
  | nil => exact hs
  | cons op ops ih => exact ih (applyOp s op) (Reachable.step s op hs)

lemma register_node_exists (s : KeyLedger) (sender : Nat) (pk : String) (n : Node)
    (h : s.nodes sender = some n) : register_node s sender pk = s := by
  simp [register_node, h]

lemma register_node_fresh (s : KeyLedger) (sender : Nat) (pk : String)
    (h : s.nodes sender = none) :
    register_node s sender pk =
      { s with nodes := mapInsert s.nodes sender { nid := sender, pubk := pk } } := by
  simp [register_node, h]

lemma mapInsert_self {α : Type} (m : Nat → Option α) (k : Nat) (v : α) :
    mapInsert m k v k = some v := by
  simp [mapInsert]

lemma mapInsert_other {α : Type} (m : Nat → Option α) (k : Nat) (v : α)
    (a : Nat) (ha : a ≠ k) : mapInsert m k v a = m a := by
  simp [mapInsert, ha]

lemma tft_one (s : KeyLedger) (f t : Nat) (hft : f ≠ t) :
    balance_of (transfer_from_to s f t 1).1 f = balance_of s f - 1 ∧
    balance_of (transfer_from_to s f t 1).1 t
      = balance_of s t + (if 1 ≤ balance_of s f then 1 else 0) ∧
    ∀ a, a ≠ f → a ≠ t → balance_of (transfer_from_to s f t 1).1 a = balance_of s a := by
  by_cases hc : balance_of s f < 1
  · have hb0 : balance_of s f = 0 := by omega
    rw [transfer_from_to_insufficient s f t 1 hc]
    exact ⟨by simp [hb0], by simp [hb0], fun a _ _ => rfl⟩
  · have hv : 1 ≤ balance_of s f := Nat.not_lt.mp hc
    obtain ⟨_, h1, h2, h3⟩ := transfer_from_to_ok s f t 1 hft hv
    refine ⟨h1, ?_, h3⟩
    rw [h2]
    simp [hv]

lemma payout_chain (s0 : KeyLedger) (userId n1 n2 n3 : Nat)
    (hn1 : n1 ≠ userId) (hn2 : n2 ≠ userId) (hn3 : n3 ≠ userId)
    (h12 : n1 ≠ n2) (h13 : n1 ≠ n3) (h23 : n2 ≠ n3) :
    balance_of (transfer_from_to ((transfer_from_to ((transfer_from_to s0 userId n1 1).1)
        userId n2 1).1) userId n3 1).1 n1
      = balance_of s0 n1 + (if 1 ≤ balance_of s0 userId then 1 else 0) ∧
    balance_of (transfer_from_to ((transfer_from_to ((transfer_from_to s0 userId n1 1).1)
        userId n2 1).1) userId n3 1).1 n2
      = balance_of s0 n2 + (if 2 ≤ balance_of s0 userId then 1 else 0) ∧
    balance_of (transfer_from_to ((transfer_from_to ((transfer_from_to s0 userId n1 1).1)
        userId n2 1).1) userId n3 1).1 n3
      = balance_of s0 n3 + (if 3 ≤ balance_of s0 userId then 1 else 0) ∧
    balance_of (transfer_from_to ((transfer_from_to ((transfer_from_to s0 userId n1 1).1)
        userId n2 1).1) userId n3 1).1 userId
      = balance_of s0 userId - 3 := by
  obtain ⟨a1, b1, c1⟩ := tft_one s0 userId n1 (Ne.symm hn1)
  obtain ⟨a2, b2, c2⟩ := tft_one (transfer_from_to s0 userId n1 1).1 userId n2 (Ne.symm hn2)
  obtain ⟨a3, b3, c3⟩ :=
    tft_one (transfer_from_to ((transfer_from_to s0 userId n1 1).1) userId n2 1).1
      userId n3 (Ne.symm hn3)
  refine ⟨?_, ?_, ?_, ?_⟩
  · rw [c3 n1 hn1 h13, c2 n1 hn1 h12, b1]
  · rw [c3 n2 hn2 h23, b2, c1 n2 hn2 (Ne.symm h12), a1]
    have hmin : (if 1 ≤ balance_of s0 userId - 1 then (1:Nat) else 0)
        = (if 2 ≤ balance_of s0 userId then (1:Nat) else 0) := by
      by_cases h2b : 2 ≤ balance_of s0 userId
      · have hx : 1 ≤ balance_of s0 userId - 1 := by omega
        rw [if_pos hx, if_pos h2b]
      · have hx : ¬ 1 ≤ balance_of s0 userId - 1 := by omega
        rw [if_neg hx, if_neg h2b]
    rw [hmin]
  · rw [b3, c2 n3 hn3 (Ne.symm h23), c1 n3 hn3 (Ne.symm h13), a2, a1]
    have hmin : (if 1 ≤ balance_of s0 userId - 1 - 1 then (1:Nat) else 0)
        = (if 3 ≤ balance_of s0 userId then (1:Nat) else 0) := by
      by_cases h3b : 3 ≤ balance_of s0 userId
      · have hx : 1 ≤ balance_of s0 userId - 1 - 1 := by omega
        rw [if_pos hx, if_pos h3b]
      · have hx : ¬ 1 ≤ balance_of s0 userId - 1 - 1 := by omega
        rw [if_neg hx, if_neg h3b]
    rw [hmin]
  · rw [a3, a2, a1]
    omega

/-! Claim theorems. -/

/-- Claim C4: a checked transfer (`transfer_from_to`) with
`balance_of fromAcc < value` returns the `InsufficientBalance` error and
leaves the whole state (in particular both balances) unchanged; with
sufficient balance it debits `fromAcc` by `value`, credits `toAcc` by
`value` (for `fromAcc = toAcc` the sequential debit-then-credit leaves
the balance unchanged) and returns success.  `InsufficientBalance` is the
only inhabitant of the contract's `Error` type, hence the only
caller-visible error of the core. -/
theorem claim_C4_transfer_checked (s : KeyLedger) (fromAcc toAcc : Nat) (value : Nat) :
    (balance_of s fromAcc < value →
      transfer_from_to s fromAcc toAcc value = (s, Except.error Error.InsufficientBalance)) ∧
    (value ≤ balance_of s fromAcc →
      (transfer_from_to s fromAcc toAcc value).2 = Except.ok () ∧
      (fromAcc ≠ toAcc →
        balance_of (transfer_from_to s fromAcc toAcc value).1 fromAcc
          = balance_of s fromAcc - value ∧
        balance_of (transfer_from_to s fromAcc toAcc value).1 toAcc
          = balance_of s toAcc + value) ∧
      (fromAcc = toAcc →
        balance_of (transfer_from_to s fromAcc toAcc value).1 toAcc = balance_of s toAcc)) ∧
    (∀ e : Error, e = Error.InsufficientBalance) := by
  refine ⟨fun h => transfer_from_to_insufficient s fromAcc toAcc value h, ?_, ?_⟩
  · intro hv
    have hc : ¬ balance_of s fromAcc < value := Nat.not_lt.mpr hv
    refine ⟨?_, ?_, ?_⟩
    · rw [transfer_from_to_ok_eq s fromAcc toAcc value hc]
    · intro hft
      obtain ⟨_, h1, h2, _⟩ := transfer_from_to_ok s fromAcc toAcc value hft hv
      exact ⟨h1, h2⟩
    · intro hft
      subst hft
      rw [transfer_from_to_ok_eq s fromAcc fromAcc value hc]
      have hv2 : value ≤ (s.balances fromAcc).getD 0 := hv
      simp [balance_of, mapInsert]
      omega
  · intro e
    cases e
    rfl

/-- Witness for claim C4 at concrete inputs: with supply 5 at account 0, a
checked transfer of 9 fails leaving the state unchanged, while a checked
transfer of 3 to account 1 debits and credits as stated. -/
theorem claim_C4_transfer_checked_witness :
    (balance_of (new 0 5) 0 < 9 ∧
      transfer_from_to (new 0 5) 0 1 9 = (new 0 5, Except.error Error.InsufficientBalance)) ∧
    (3 ≤ balance_of (new 0 5) 0 ∧ (0 : Nat) ≠ 1 ∧
      balance_of (transfer_from_to (new 0 5) 0 1 3).1 0 = balance_of (new 0 5) 0 - 3 ∧
      balance_of (transfer_from_to (new 0 5) 0 1 3).1 1 = balance_of (new 0 5) 1 + 3) :=
  ⟨⟨by decide, (claim_C4_transfer_checked (new 0 5) 0 1 9).1 (by decide)⟩,
   ⟨by decide, by decide,
    (((claim_C4_transfer_checked (new 0 5) 0 1 3).2.1 (by decide)).2.1 (by decide)).1,
    (((claim_C4_transfer_checked (new 0 5) 0 1 3).2.1 (by decide)).2.1 (by decide)).2⟩⟩

/-- Claim C5: the unchecked `transfer` performs no balance guard — the
commented-out check is absent, so the caller's balance is debited by bare
unsigned subtraction: whenever the balance suffices the debit and credit
happen and `Ok(())` is returned, and the call underflows (is undefined,
modelled as `none`) exactly when `balance_of caller < value`; a concrete
underflowing input is exhibited. -/
theorem claim_C5_transfer_unchecked_no_guard (s : KeyLedger) (caller toAcc : Nat)
    (value : Nat) :
    (transfer s caller toAcc value = none ↔ balance_of s caller < value) ∧
    (value ≤ balance_of s caller →
      ∃ s1, transfer s caller toAcc value = some (s1, Except.ok ()) ∧
        (caller ≠ toAcc →
          balance_of s1 caller = balance_of s caller - value ∧
          balance_of s1 toAcc = balance_of s toAcc + value)) ∧
    (balance_of (new 0 0) 1 < 5 ∧ transfer (new 0 0) 1 2 5 = none) := by
  refine ⟨⟨?_, fun h => transfer_none_eq s caller toAcc value h⟩, ?_, ?_⟩
  · intro hnone
    by_cases hc : balance_of s caller < value
    · exact hc
    · rw [transfer_ok_eq s caller toAcc value hc] at hnone
      exact absurd hnone (by simp)
  · intro hv
    have hc : ¬ balance_of s caller < value := Nat.not_lt.mpr hv
    rw [transfer_ok_eq s caller toAcc value hc]
    refine ⟨_, rfl, ?_⟩
    intro hft
    constructor
    · simp [balance_of, mapInsert, hft]
    · simp [balance_of, mapInsert, Ne.symm hft]
  · exact ⟨by decide, transfer_none_eq (new 0 0) 1 2 5 (by decide)⟩

/-- Witness for claim C5 at a concrete input: account 0 holds 5 and sends
3 to account 1 through the unchecked transfer. -/
theorem claim_C5_transfer_unchecked_no_guard_witness :
    3 ≤ balance_of (new 0 5) 0 ∧
    ∃ s1, transfer (new 0 5) 0 1 3 = some (s1, Except.ok ()) ∧
      ((0 : Nat) ≠ 1 →
        balance_of s1 0 = balance_of (new 0 5) 0 - 3 ∧
        balance_of s1 1 = balance_of (new 0 5) 1 + 3) :=
  ⟨by decide, (claim_C5_transfer_unchecked_no_guard (new 0 5) 0 1 3).2.1 (by decide)⟩

/-- Claim C6: `start_recovery` with balance below 3 leaves the entire
state unchanged (and surfaces no error — the entry point returns unit);
with balance at least 3 and an existing session, the session becomes
Active (status 1) with all proofs cleared and all flags reset, while
`r_times`, `uid`, the user records (custodian assignment), balances,
nodes and every other session are unchanged; with no session the call is
a no-op. -/
theorem claim_C6_start_recovery_guard_and_reset (s : KeyLedger) (caller : Nat) :
    (balance_of s caller < 3 → start_recovery s caller = s) ∧
    (3 ≤ balance_of s caller → ∀ r, s.recoveries caller = some r →
      ∃ r1, (start_recovery s caller).recoveries caller = some r1 ∧
        r1.status = 1 ∧
        r1.recovery1_proof = "" ∧ r1.node1_confirm = 0 ∧
        r1.recovery2_proof = "" ∧ r1.node2_confirm = 0 ∧
        r1.recovery3_proof = "" ∧ r1.node3_confirm = 0 ∧
        r1.r_times = r.r_times ∧ r1.uid = r.uid ∧
        (start_recovery s caller).users = s.users ∧
        (start_recovery s caller).balances = s.balances ∧
        (start_recovery s caller).nodes = s.nodes ∧
        (∀ a, a ≠ caller → (start_recovery s caller).recoveries a = s.recoveries a)) ∧
    (3 ≤ balance_of s caller → s.recoveries caller = none → start_recovery s caller = s) := by
  refine ⟨fun h => start_recovery_lt s caller h, ?_, ?_⟩
  · intro h3 r hr
    have hn : ¬ balance_of s caller < 3 := Nat.not_lt.mpr h3
    rw [start_recovery_some s caller r hn hr]
    refine ⟨{ r with status := 1
                     recovery1_proof := "", node1_confirm := 0
                     recovery2_proof := "", node2_confirm := 0
                     recovery3_proof := "", node3_confirm := 0 },
      mapInsert_self s.recoveries caller _,
      rfl, rfl, rfl, rfl, rfl, rfl, rfl, rfl, rfl, rfl, rfl, rfl, ?_⟩
    intro a ha
    exact mapInsert_other s.recoveries caller _ a ha
  · intro h3 hr
    exact start_recovery_no_session s caller (Nat.not_lt.mpr h3) hr

/-- Witness for claim C6 at concrete inputs: in `sampleRegistered` user 1
has balance 0, so starting a recovery changes nothing; in `sampleActive`
user 1 has balance 3 and a session, so the reset path applies; in a fresh
deployment account 0 has balance 30000 but no session, so nothing
happens. -/
theorem claim_C6_start_recovery_guard_and_reset_witness :
    (balance_of sampleRegistered 1 < 3 ∧ start_recovery sampleRegistered 1 = sampleRegistered) ∧
    (3 ≤ balance_of sampleActive 1 ∧
      sampleActive.recoveries 1 =
        some { status := 1, uid := 1, r_times := 0
               recovery1_proof := "", node1_confirm := 0
               recovery2_proof := "", node2_confirm := 0
               recovery3_proof := "", node3_confirm := 0 } ∧
      ∃ r1, (start_recovery sampleActive 1).recoveries 1 = some r1 ∧
        r1.status = 1 ∧
        r1.recovery1_proof = "" ∧ r1.node1_confirm = 0 ∧
        r1.recovery2_proof = "" ∧ r1.node2_confirm = 0 ∧
        r1.recovery3_proof = "" ∧ r1.node3_confirm = 0 ∧
        r1.r_times = ({ status := 1, uid := 1, r_times := 0
                        recovery1_proof := "", node1_confirm := 0
                        recovery2_proof := "", node2_confirm := 0
                        recovery3_proof := "", node3_confirm := 0 } : Recovery).r_times ∧
        r1.uid = ({ status := 1, uid := 1, r_times := 0
                    recovery1_proof := "", node1_confirm := 0
                    recovery2_proof := "", node2_confirm := 0
                    recovery3_proof := "", node3_confirm := 0 } : Recovery).uid ∧
        (start_recovery sampleActive 1).users = sampleActive.users ∧
        (start_recovery sampleActive 1).balances = sampleActive.balances ∧
        (start_recovery sampleActive 1).nodes = sampleActive.nodes ∧
        (∀ a, a ≠ 1 → (start_recovery sampleActive 1).recoveries a = sampleActive.recoveries a)) ∧
    (3 ≤ balance_of (new 0 30000) 0 ∧ (new 0 30000).recoveries 0 = none ∧
      start_recovery (new 0 30000) 0 = new 0 30000) :=
  ⟨⟨by decide, (claim_C6_start_recovery_guard_and_reset sampleRegistered 1).1 (by decide)⟩,
   ⟨by decide, by decide,
    (claim_C6_start_recovery_guard_and_reset sampleActive 1).2.1 (by decide) _ (by decide)⟩,
   ⟨by decide, by decide,
    (claim_C6_start_recovery_guard_and_reset (new 0 30000) 0).2.2 (by decide) (by decide)⟩⟩

/-- Claim C7: immediately after `register_user` the stored session for
the caller is Idle (status 0) with `r_times = 0`, empty proofs and zero
confirmation flags, and the stored User record carries exactly the three
supplied (condition, node id) pairs — for every prior state `s`,
including one where the caller already had a User record and an Active or
Finalized session, both records being overwritten wholesale. -/
theorem claim_C7_register_user_fresh_session (s : KeyLedger) (sender : Nat) (pubk : String)
    (c1 : Nat) (n1 : Nat) (c2 : Nat) (n2 : Nat) (c3 : Nat) (n3 : Nat) :
    (register_user s sender pubk c1 n1 c2 n2 c3 n3).recoveries sender =
      some { status := 0, uid := sender, r_times := 0
             recovery1_proof := "", node1_confirm := 0
             recovery2_proof := "", node2_confirm := 0
             recovery3_proof := "", node3_confirm := 0 } ∧
    (register_user s sender pubk c1 n1 c2 n2 c3 n3).users sender =
      some { uid := sender, pubk := pubk
             node1_cond_type := c1, node1_id := n1
             node2_cond_type := c2, node2_id := n2
             node3_cond_type := c3, node3_id := n3 } := by
  constructor
  · exact mapInsert_self s.recoveries sender _
  · exact mapInsert_self s.users sender _

/-- Claim C8: registering a node twice with two different public keys
leaves the stored Node record equal to the one created by the first call;
the second call changes no state at all and surfaces no error. -/
theorem claim_C8_register_node_idempotent (s : KeyLedger) (sender : Nat) (pk1 pk2 : String)
    (hfresh : s.nodes sender = none) (hne : pk1 ≠ pk2) :
    register_node (register_node s sender pk1) sender pk2 = register_node s sender pk1 ∧
    (register_node (register_node s sender pk1) sender pk2).nodes sender =
      some { nid := sender, pubk := pk1 } := by
  have h2 : (register_node s sender pk1).nodes sender = some { nid := sender, pubk := pk1 } := by
    rw [register_node_fresh s sender pk1 hfresh]
    exact mapInsert_self s.nodes sender _
  have hno : register_node (register_node s sender pk1) sender pk2 = register_node s sender pk1 :=
    register_node_exists (register_node s sender pk1) sender pk2 _ h2
  exact ⟨hno, by rw [hno]; exact h2⟩

/-- Witness for claim C8 at a concrete input: account 5 registers with
key pk1 and then with key pk2 on a fresh deployment. -/
theorem claim_C8_register_node_idempotent_witness :
    (new 0 7).nodes 5 = none ∧ "pk1" ≠ "pk2" ∧
    register_node (register_node (new 0 7) 5 "pk1") 5 "pk2" =
      register_node (new 0 7) 5 "pk1" ∧
    (register_node (register_node (new 0 7) 5 "pk1") 5 "pk2").nodes 5 =
      some { nid := 5, pubk := "pk1" } :=
  ⟨by decide, by decide,
   (claim_C8_register_node_idempotent (new 0 7) 5 "pk1" "pk2" (by decide) (by decide)).1,
   (claim_C8_register_node_idempotent (new 0 7) 5 "pk1" "pk2" (by decide) (by decide)).2⟩

/-- Claim C1 (evaluated at the failing input): from the reachable state
`sampleActive` (user 1 registered with custodians 2, 3, 4, balance 3,
session Active), custodians 2 and 3 each call `finish_recovery` once, in
either order.  Contrary to the claim, the state afterwards is completely
unchanged: the session is still Active (status 1) with zero confirmation
flags and `r_times = 0`, and no balance moved — because the
below-threshold slot update is never written back to storage, the second
confirmer still sees zero stored confirmations and the threshold is
never reached. -/
theorem claim_C1_two_confirmations_never_finalize :
    finish_recovery (finish_recovery sampleActive 2 1 "p1") 3 1 "p2" = sampleActive ∧
    finish_recovery (finish_recovery sampleActive 3 1 "p2") 2 1 "p1" = sampleActive ∧
    sampleActive.users 1 =
      some { uid := 1, pubk := "pkA"
             node1_cond_type := 0, node1_id := 2
             node2_cond_type := 0, node2_id := 3
             node3_cond_type := 0, node3_id := 4 } ∧
    sampleActive.recoveries 1 =
      some { status := 1, uid := 1, r_times := 0
             recovery1_proof := "", node1_confirm := 0
             recovery2_proof := "", node2_confirm := 0
             recovery3_proof := "", node3_confirm := 0 } ∧
    balance_of sampleActive 1 = 3 :=
  ⟨rfl, rfl, by decide, by decide, by decide⟩

/-- Claim C2 (evaluated at the failing input): in `sampleActive` the
session of user 1 is Active and caller 2 is assigned custodian slot 1;
one below-threshold `finish_recovery` call leaves the whole state — in
particular the stored session, whose slot-1 flag is still 0 and proof
still empty — unchanged, because the source mutates only the local copy
of the `Recovery` record and performs no `recoveries.insert` in the
below-threshold branch. -/
theorem claim_C2_below_threshold_update_not_persisted :
    finish_recovery sampleActive 2 1 "p1" = sampleActive ∧
    (finish_recovery sampleActive 2 1 "p1").recoveries 1 =
      some { status := 1, uid := 1, r_times := 0
             recovery1_proof := "", node1_confirm := 0
             recovery2_proof := "", node2_confirm := 0
             recovery3_proof := "", node3_confirm := 0 } :=
  ⟨rfl, by decide⟩

/-- Claim C3: first, whenever a `finish_recovery` call takes a session
of a user from status 1 (Active) to status 2 (Finalized), the stored
`r_times` counter is incremented by exactly 1 — at every state, reachable
or not.  Second, over any sequence of contract operations from any
reachable state, the `r_times` counter of any user's stored session never
decreases. -/
theorem claim_C3_total_completions_monotone (s : KeyLedger) :
    (∀ sender userId proof r r1,
      s.recoveries userId = some r → r.status = 1 →
      (finish_recovery s sender userId proof).recoveries userId = some r1 → r1.status = 2 →
      r1.r_times = r.r_times + 1) ∧
    (Reachable s → ∀ ops a r r1,
      s.recoveries a = some r →
      (List.foldl applyOp s ops).recoveries a = some r1 →
      r.r_times ≤ r1.r_times) := by
  constructor
  · intro sender userId proof r r1 hr hst h1 hst2
    rcases hu : s.users userId with _ | u
    · rw [finish_recovery_no_user s sender userId proof hu, hr] at h1
      injection h1 with h1
      subst h1
      omega
    · by_cases hge : 2 ≤ confirm_parts (applyConfirm u r sender proof)
      · rw [finish_recovery_finalize s sender userId proof u r hu hr hst hge] at h1
        rw [(transfer_from_to_fst_frame _ _ _ _).1] at h1
        rw [(transfer_from_to_fst_frame _ _ _ _).1] at h1
        rw [(transfer_from_to_fst_frame _ _ _ _).1] at h1
        have h1' : mapInsert s.recoveries userId
            { applyConfirm u r sender proof with
                r_times := (applyConfirm u r sender proof).r_times + 1, status := 2 } userId
            = some r1 := h1
        rw [mapInsert_self] at h1'
        injection h1' with h1'
        rw [← h1']
        exact congrArg (fun n => n + 1) (applyConfirm_r_times u r sender proof)
      · rw [finish_recovery_below_threshold s sender userId proof u r hu hr hst
          (Nat.not_le.mp hge), hr] at h1
        injection h1 with h1
        subst h1
        omega
  · intro hs ops a r r1 hr h1
    have hi0 := reachable_recInv s hs a r hr
    have hi1 := reachable_recInv (List.foldl applyOp s ops) (reachable_foldl s hs ops) a r1 h1
    rw [hi0.2.2.2, hi1.2.2.2]

/-- Witness for claim C3: the finalize-increments-by-one part is
exercised at the concrete state `sampleTwoConfirm` (two confirmation
flags pre-stored) where a third confirmation finalizes the session; the
monotonicity part is exercised over the reachable state `sampleActive`
followed by one confirmation call. -/
theorem claim_C3_total_completions_monotone_witness :
    (sampleTwoConfirm.recoveries 1 =
        some { status := 1, uid := 1, r_times := 0
               recovery1_proof := "p1", node1_confirm := 1
               recovery2_proof := "p2", node2_confirm := 1
               recovery3_proof := "", node3_confirm := 0 } ∧
      (finish_recovery sampleTwoConfirm 4 1 "p3").recoveries 1 =
        some { status := 2, uid := 1, r_times := 1
               recovery1_proof := "p1", node1_confirm := 1
               recovery2_proof := "p2", node2_confirm := 1
               recovery3_proof := "p3", node3_confirm := 1 } ∧
      ({ status := 2, uid := 1, r_times := 1
         recovery1_proof := "p1", node1_confirm := 1
         recovery2_proof := "p2", node2_confirm := 1
         recovery3_proof := "p3", node3_confirm := 1 } : Recovery).r_times =
        ({ status := 1, uid := 1, r_times := 0
           recovery1_proof := "p1", node1_confirm := 1
           recovery2_proof := "p2", node2_confirm := 1
           recovery3_proof := "", node3_confirm := 0 } : Recovery).r_times + 1) ∧
    (Reachable sampleActive ∧
      sampleActive.recoveries 1 =
        some { status := 1, uid := 1, r_times := 0
               recovery1_proof := "", node1_confirm := 0
               recovery2_proof := "", node2_confirm := 0
               recovery3_proof := "", node3_confirm := 0 } ∧
      (List.foldl applyOp sampleActive [Op.finish_recovery 2 1 "p1"]).recoveries 1 =
        some { status := 1, uid := 1, r_times := 0
               recovery1_proof := "", node1_confirm := 0
               recovery2_proof := "", node2_confirm := 0
               recovery3_proof := "", node3_confirm := 0 } ∧
      ({ status := 1, uid := 1, r_times := 0
         recovery1_proof := "", node1_confirm := 0
         recovery2_proof := "", node2_confirm := 0
         recovery3_proof := "", node3_confirm := 0 } : Recovery).r_times ≤
        ({ status := 1, uid := 1, r_times := 0
           recovery1_proof := "", node1_confirm := 0
           recovery2_proof := "", node2_confirm := 0
           recovery3_proof := "", node3_confirm := 0 } : Recovery).r_times) := by
  have hreach : Reachable sampleActive :=
    Reachable.step (applyOp sampleRegistered (Op.transfer 0 1 3)) (Op.start_recovery 1)
      (Reachable.step sampleRegistered (Op.transfer 0 1 3)
        (Reachable.step (new 0 30000) (Op.register_user 1 "pkA" 0 2 0 3 0 4)
          (Reachable.init 0 30000)))
  refine ⟨⟨by decide, by decide, ?_⟩, hreach, by decide, by decide, ?_⟩
  · exact (claim_C3_total_completions_monotone sampleTwoConfirm).1 4 1 "p3"
      _ _ (by decide) (by decide) (by decide) (by decide)
  · exact (claim_C3_total_completions_monotone sampleActive).2 hreach
      [Op.finish_recovery 2 1 "p1"] 1 _ _ (by decide) (by decide)

/-- Counterexample to claim C9 as stated over every state: in the
explicit (unreachable) state `sampleTwoConfirm`, whose stored session for
user 1 already carries two confirmation flags while Active, a caller 9
that matches none of the assigned custodians 2, 3, 4 nevertheless
changes the stored session — the call reads a flag sum of 2 and takes
the finalize branch. -/
theorem claim_C9_counterexample_unreachable_state :
    sampleTwoConfirm.users 1 =
      some { uid := 1, pubk := "pkA"
             node1_cond_type := 0, node1_id := 2
             node2_cond_type := 0, node2_id := 3
             node3_cond_type := 0, node3_id := 4 } ∧
    (9 : Nat) ≠ 2 ∧ (9 : Nat) ≠ 3 ∧ (9 : Nat) ≠ 4 ∧
    (finish_recovery sampleTwoConfirm 9 1 "p").recoveries 1 ≠ sampleTwoConfirm.recoveries 1 :=
  ⟨by decide, by decide, by decide, by decide, by decide⟩

/-- Claim C9 (amended to reachable states): in every reachable contract
state, a `finish_recovery` call whose caller matches none of the target
user's three assigned custodians leaves the entire state — in particular
the user's stored session and all balances — unchanged. -/
theorem claim_C9_unauthorized_confirmer_inert (s : KeyLedger) (hs : Reachable s)
    (caller userId : Nat) (proof : String) (u : User)
    (hu : s.users userId = some u)
    (h1 : caller ≠ u.node1_id) (h2 : caller ≠ u.node2_id) (h3 : caller ≠ u.node3_id) :
    finish_recovery s caller userId proof = s :=
  finish_recovery_noop_of_recInv s (reachable_recInv s hs) caller userId proof

/-- Witness for the amended claim C9: in the reachable state
`sampleRegistered`, the non-custodian caller 9 submits a confirmation for
user 1 and nothing changes. -/
theorem claim_C9_unauthorized_confirmer_inert_witness :
    Reachable sampleRegistered ∧
    sampleRegistered.users 1 =
      some { uid := 1, pubk := "pkA"
             node1_cond_type := 0, node1_id := 2
             node2_cond_type := 0, node2_id := 3
             node3_cond_type := 0, node3_id := 4 } ∧
    (9 : Nat) ≠ 2 ∧ (9 : Nat) ≠ 3 ∧ (9 : Nat) ≠ 4 ∧
    finish_recovery sampleRegistered 9 1 "p" = sampleRegistered := by
  have hreach : Reachable sampleRegistered :=
    Reachable.step (new 0 30000) (Op.register_user 1 "pkA" 0 2 0 3 0 4)
      (Reachable.init 0 30000)
  refine ⟨hreach, by decide, by decide, by decide, by decide, ?_⟩
  exact claim_C9_unauthorized_confirmer_inert sampleRegistered hreach 9 1 "p"
    { uid := 1, pubk := "pkA"
      node1_cond_type := 0, node1_id := 2
      node2_cond_type := 0, node2_id := 3
      node3_cond_type := 0, node3_id := 4 }
    (by decide) (by decide) (by decide) (by decide)

/-- Claim C10: whenever a `finish_recovery` call reaches the threshold
(the flag sum after the slot update is at least 2), the session is
written back with status 2 (Finalized) and `r_times` incremented by
exactly 1, irrespective of any balance — the write happens before the
payouts and the `Result` of each of the three checked 1-unit transfers is
discarded.  Moreover (for a user and three custodians that are pairwise
distinct identities) custodian k is credited exactly 1 unit iff the
user's balance at its step suffices — custodian 1 iff balance ≥ 1,
custodian 2 iff balance ≥ 2, custodian 3 iff balance ≥ 3 — and the user
pays only for the transfers that succeeded; partial payout is possible
and finalization is not all-or-nothing. -/
theorem claim_C10_finalize_precedes_payout (s : KeyLedger) (sender userId : Nat)
    (proof : String) (u : User) (r : Recovery)
    (hu : s.users userId = some u) (hr : s.recoveries userId = some r) (hst : r.status = 1)
    (hth : 2 ≤ confirm_parts (applyConfirm u r sender proof)) :
    (∃ r1, (finish_recovery s sender userId proof).recoveries userId = some r1 ∧
      r1.status = 2 ∧ r1.r_times = r.r_times + 1) ∧
    (u.node1_id ≠ userId → u.node2_id ≠ userId → u.node3_id ≠ userId →
     u.node1_id ≠ u.node2_id → u.node1_id ≠ u.node3_id → u.node2_id ≠ u.node3_id →
      balance_of (finish_recovery s sender userId proof) u.node1_id =
        balance_of s u.node1_id + (if 1 ≤ balance_of s userId then 1 else 0) ∧
      balance_of (finish_recovery s sender userId proof) u.node2_id =
        balance_of s u.node2_id + (if 2 ≤ balance_of s userId then 1 else 0) ∧
      balance_of (finish_recovery s sender userId proof) u.node3_id =
        balance_of s u.node3_id + (if 3 ≤ balance_of s userId then 1 else 0) ∧
      balance_of (finish_recovery s sender userId proof) userId =
        balance_of s userId - 3) := by
  rw [finish_recovery_finalize s sender userId proof u r hu hr hst hth]
  constructor
  · rw [(transfer_from_to_fst_frame _ _ _ _).1]
    rw [(transfer_from_to_fst_frame _ _ _ _).1]
    rw [(transfer_from_to_fst_frame _ _ _ _).1]
    refine ⟨{ applyConfirm u r sender proof with
              r_times := (applyConfirm u r sender proof).r_times + 1, status := 2 },
            mapInsert_self s.recoveries userId _, rfl, ?_⟩
    exact congrArg (fun n => n + 1) (applyConfirm_r_times u r sender proof)
  · intro hn1 hn2 hn3 h12 h13 h23
    exact payout_chain
      { s with recoveries := (mapInsert s.recoveries userId
          { applyConfirm u r sender proof with
              r_times := (applyConfirm u r sender proof).r_times + 1, status := 2 }) }
      userId u.node1_id u.node2_id u.node3_id hn1 hn2 hn3 h12 h13 h23

/-- Witness for claim C10 at a concrete input: in `sampleOneConfirm`
(one confirmation flag pre-stored, user 1 holds 3 units) custodian 3
submits the second confirmation; the session finalizes with the counter
at 1 and all three custodians 2, 3, 4 are paid 1 unit each out of user
1's balance. -/
theorem claim_C10_finalize_precedes_payout_witness :
    sampleOneConfirm.users 1 =
      some { uid := 1, pubk := "pkA"
             node1_cond_type := 0, node1_id := 2
             node2_cond_type := 0, node2_id := 3
             node3_cond_type := 0, node3_id := 4 } ∧
    sampleOneConfirm.recoveries 1 =
      some { status := 1, uid := 1, r_times := 0
             recovery1_proof := "p1", node1_confirm := 1
             recovery2_proof := "", node2_confirm := 0
             recovery3_proof := "", node3_confirm := 0 } ∧
    ({ status := 1, uid := 1, r_times := 0
       recovery1_proof := "p1", node1_confirm := 1
       recovery2_proof := "", node2_confirm := 0
       recovery3_proof := "", node3_confirm := 0 } : Recovery).status = 1 ∧
    2 ≤ confirm_parts (applyConfirm
      { uid := 1, pubk := "pkA"
        node1_cond_type := 0, node1_id := 2
        node2_cond_type := 0, node2_id := 3
        node3_cond_type := 0, node3_id := 4 }
      { status := 1, uid := 1, r_times := 0
        recovery1_proof := "p1", node1_confirm := 1
        recovery2_proof := "", node2_confirm := 0
        recovery3_proof := "", node3_confirm := 0 } 3 "q") ∧
    (∃ r1, (finish_recovery sampleOneConfirm 3 1 "q").recoveries 1 = some r1 ∧
      r1.status = 2 ∧
      r1.r_times = ({ status := 1, uid := 1, r_times := 0
                      recovery1_proof := "p1", node1_confirm := 1
                      recovery2_proof := "", node2_confirm := 0
                      recovery3_proof := "", node3_confirm := 0 } : Recovery).r_times + 1) ∧
    (balance_of (finish_recovery sampleOneConfirm 3 1 "q") 2 =
        balance_of sampleOneConfirm 2 + (if 1 ≤ balance_of sampleOneConfirm 1 then 1 else 0) ∧
      balance_of (finish_recovery sampleOneConfirm 3 1 "q") 3 =
        balance_of sampleOneConfirm 3 + (if 2 ≤ balance_of sampleOneConfirm 1 then 1 else 0) ∧
      balance_of (finish_recovery sampleOneConfirm 3 1 "q") 4 =
        balance_of sampleOneConfirm 4 + (if 3 ≤ balance_of sampleOneConfirm 1 then 1 else 0) ∧
      balance_of (finish_recovery sampleOneConfirm 3 1 "q") 1 =
        balance_of sampleOneConfirm 1 - 3) := by
  have h := claim_C10_finalize_precedes_payout sampleOneConfirm 3 1 "q"
    { uid := 1, pubk := "pkA"
      node1_cond_type := 0, node1_id := 2
      node2_cond_type := 0, node2_id := 3
      node3_cond_type := 0, node3_id := 4 }
    { status := 1, uid := 1, r_times := 0
      recovery1_proof := "p1", node1_confirm := 1
      recovery2_proof := "", node2_confirm := 0
      recovery3_proof := "", node3_confirm := 0 }
    (by decide) (by decide) (by decide) (by decide)
  exact ⟨by decide, by decide, by decide, by decide, h.1,
    h.2 (by decide) (by decide) (by decide) (by decide) (by decide) (by decide)⟩
